import Mathlib

/-!
Verification of the tupperware container library (Optional / Result /
Validation).  The repository carries two generations of the code side by
side:

* the `tupperware` generation (src/src/Validation.ts): an `Optional`
  whose factories `of` and `some` wrap any value without a null check,
  whose `None.unwrap` throws `tupperware:unwrap_on_none` directly, plus a
  `Validation` type accumulating error lists via `assert`;
* the `nullshield` generation (src/src/OptionT.ts, src/src/ResultT.ts): an
  `OptionT` whose `of` maps null/undefined to `None`, whose `some` throws
  on null/undefined, and whose `unwrap` enforces a per-instance
  "has been inspected" discipline via a mutable flag set by `isSome`,
  `isNone` and `and`; and a `ResultT` with `Ok`/`Err`.

Each JavaScript class is embedded shallowly: plain methods become pure
functions, the mutable inspection flag becomes explicit state passing
(methods return the updated receiver), throwing methods return `Except`,
callbacks whose invocation matters are threaded through an explicit state
type, and reference identity (`===`) is modelled by tagging heap objects
with an allocation id (`new` consumes a fresh id).
-/

/-- A JavaScript value of payload type `α` that may also be `null` or
`undefined` (the two "absent" values the library's null checks test for,
via `value === null || typeof value === 'undefined'`). -/
inductive Nullable (α : Type) where
  | nul
  | undef
  | val (a : α)
deriving DecidableEq, Repr

/-- `true` exactly when the value is neither `null` nor `undefined`. -/
def Nullable.isPresent {α : Type} : Nullable α → Bool
  | .nul => false
  | .undef => false
  | .val _ => true

namespace Tupperware

/-- The `Optional` variants of the tupperware generation
(src/src/Validation.ts): `Some` holds a value, `None` holds nothing.
This generation has no inspection flag. -/
inductive TOption (α : Type) where
  | some (value : α)
  | none
deriving DecidableEq, Repr

/-- `Optional.of` (src/src/Validation.ts lines 135-137):
`return new Some(value);` — no null check of any kind. -/
def TOption.of {α : Type} (value : α) : TOption α :=
  TOption.some value

/-- `Optional.some` (src/src/Validation.ts lines 151-153):
`return new Some(value);` — again no null check. -/
def TOption.someFactory {α : Type} (value : α) : TOption α :=
  TOption.some value

/-- `Optional.fromNullable` (src/src/Validation.ts lines 183-188):
null/undefined become a `None`, anything else a `Some`. -/
def TOption.fromNullable {α : Type} : Nullable α → TOption α
  | .nul => TOption.none
  | .undef => TOption.none
  | .val a => TOption.some a

/-- `Some.isSome` / `None.isSome` of the tupperware generation. -/
def TOption.isSome {α : Type} : TOption α → Bool
  | .some _ => true
  | .none => false

/-- `Some.isNone` / `None.isNone` of the tupperware generation. -/
def TOption.isNone {α : Type} : TOption α → Bool
  | .some _ => false
  | .none => true

/-- `Some.map` (src/src/Validation.ts lines 689-691) re-wraps through
`Optional.of`, i.e. `return Optional.of(func(this.value));`;
`None.map` (lines 798-800) returns `new None()`. -/
def TOption.map {α β : Type} (func : α → β) : TOption α → TOption β
  | .some v => TOption.of (func v)
  | .none => TOption.none

/-- `Some.flatMap` (src/src/Validation.ts lines 697-699) is
`return func(this.value);`; `None.flatMap` (lines 806-808) returns
`new None()`. -/
def TOption.flatMap {α β : Type} (func : α → TOption β) : TOption α → TOption β
  | .some v => func v
  | .none => TOption.none

/-- `Some.unwrapOrElse` / `None.unwrapOrElse`
(src/src/Validation.ts lines 685-687 and 794-796), with the thunk's
possible side effects threaded through an explicit state `σ`:
`Some` returns `this.value` without touching the thunk, `None` returns
`func()`. -/
def TOption.unwrapOrElseS {α σ : Type} (o : TOption α)
    (func : σ → α × σ) (s : σ) : α × σ :=
  match o with
  | .some v => (v, s)
  | .none => func s

/-- `Some.orElse` / `None.orElse`
(src/src/Validation.ts lines 705-707 and 814-816), state-threaded the
same way: `Some` returns `this` without touching the thunk, `None`
returns `func()`. -/
def TOption.orElseS {α σ : Type} (o : TOption α)
    (func : σ → TOption α × σ) (s : σ) : TOption α × σ :=
  match o with
  | .some _ => (o, s)
  | .none => func s

end Tupperware

/-- A heap-allocated `Optional` instance of the tupperware generation:
`id` is its allocation identity (two objects are `===` exactly when their
ids are equal), `val` its variant and payload. -/
structure OptObj (α : Type) where
  id : Nat
  val : Tupperware.TOption α
deriving DecidableEq, Repr

/-- `Some.filter` (src/src/Validation.ts lines 717-722):
`if (condition(this.value)) { return this; } return new None();` —
`None.filter` (lines 826-828): `return new None();`.  `fresh` is the
allocation id handed to `new None()`. -/
def OptObj.filter {α : Type} (o : OptObj α) (condition : α → Bool)
    (fresh : Nat) : OptObj α :=
  match o.val with
  | .some v => if condition v then o else ⟨fresh, .none⟩
  | .none => ⟨fresh, .none⟩

namespace Nullshield

/-- The error conditions thrown by the nullshield generation, with the
message carried by the thrown `Error`. -/
inductive NsErr where
  | invalidArgument (msg : String)
  | uncheckedUnwrap (msg : String)
  | unwrapOnNone (msg : String)
deriving DecidableEq, Repr

/-- The message of the `nullshield:unchecked_unwrap` error thrown by
`Some.unwrap` and `None.unwrap` (src/src/OptionT.ts lines 902-911 and
993-1005). -/
def uncheckedUnwrapMsg : String :=
  "nullshield:unchecked_unwrap: Called unwrap without first checking if it was safe to do so. Please verify that the `OptionT` in question is a `Some` value before calling this function or use a safer function like `unwrapOr` which provides a default value in case this `OptionT` is a `None`."

/-- An `OptionT` instance of the nullshield generation
(src/src/OptionT.ts): `val = some v` for the `Some` class, `val = none`
for the `None` class; `hasBeenInspected` is the private mutable flag both
constructors initialise to `false`.  Mutation is modelled by returning
the updated receiver. -/
structure NsOpt (α : Type) where
  val : Option α
  hasBeenInspected : Bool
deriving DecidableEq, Repr

/-- `new Some(value)` / `new None()` — both constructors set
`hasBeenInspected = false` (src/src/OptionT.ts lines 882-886, 974-977). -/
def NsOpt.new {α : Type} (val : Option α) : NsOpt α :=
  ⟨val, false⟩

/-- `OptionT.of` (src/src/OptionT.ts lines 20-25): null/undefined give
`new None()`, otherwise `new Some(value)`.  Never throws. -/
def NsOpt.of {α : Type} : Nullable α → NsOpt α
  | .nul => NsOpt.new Option.none
  | .undef => NsOpt.new Option.none
  | .val a => NsOpt.new (Option.some a)

/-- `OptionT.some` (src/src/OptionT.ts lines 27-32): throws
`Error('Cannot create a Some of a null or undefined value')` on
null/undefined, otherwise returns `new Some(value)`. -/
def NsOpt.someFactory {α : Type} : Nullable α → Except NsErr (NsOpt α)
  | .nul =>
    Except.error (.invalidArgument "Cannot create a Some of a null or undefined value")
  | .undef =>
    Except.error (.invalidArgument "Cannot create a Some of a null or undefined value")
  | .val a => Except.ok (NsOpt.new (Option.some a))

/-- `Some.isSome` / `None.isSome` (src/src/OptionT.ts lines 888-891,
979-982): sets `hasBeenInspected = true` and reports the variant.
Returns the boolean together with the mutated receiver. -/
def NsOpt.isSome {α : Type} (self : NsOpt α) : Bool × NsOpt α :=
  (self.val.isSome, { self with hasBeenInspected := true })

/-- `Some.isNone` / `None.isNone` (src/src/OptionT.ts lines 893-896,
984-987): sets `hasBeenInspected = true` and reports the variant. -/
def NsOpt.isNone {α : Type} (self : NsOpt α) : Bool × NsOpt α :=
  (self.val.isNone, { self with hasBeenInspected := true })

/-- `Some.and` (src/src/OptionT.ts lines 932-935) sets
`this.hasBeenInspected = true` and returns `other`; `None.and`
(lines 1029-1032) sets the flag and returns `new None()`.  The result is
the returned `OptionT` paired with the mutated receiver. -/
def NsOpt.and {α β : Type} (self : NsOpt α) (other : NsOpt β) :
    NsOpt β × NsOpt α :=
  match self.val with
  | Option.some _ => (other, { self with hasBeenInspected := true })
  | Option.none => (NsOpt.new Option.none, { self with hasBeenInspected := true })

/-- `Some.unwrap` (src/src/OptionT.ts lines 902-911) and `None.unwrap`
(lines 993-1005): both first throw `nullshield:unchecked_unwrap` when the
flag is unset; then `Some` returns its value and `None` throws
`nullshield:unwrap_on_none`, using `message` as detail when provided. -/
def NsOpt.unwrap {α : Type} (self : NsOpt α) (message : Option String) :
    Except NsErr α :=
  if self.hasBeenInspected = false then
    Except.error (.uncheckedUnwrap uncheckedUnwrapMsg)
  else
    match self.val with
    | Option.some v => Except.ok v
    | Option.none =>
      match message with
      | Option.some m => Except.error (.unwrapOnNone ("nullshield:unwrap_on_none: " ++ m))
      | Option.none =>
        Except.error (.unwrapOnNone "nullshield:unwrap_on_none: Called unwrap on a None value.")

/-- The `ResultT` variants of the nullshield generation
(src/src/ResultT.ts): `Ok` holds a success value, `Err` an error value. -/
inductive TResult (α ε : Type) where
  | ok (value : α)
  | err (error : ε)
deriving DecidableEq, Repr

/-- `Ok.flatMap` (src/src/ResultT.ts lines 467-469) is
`return func(this.value);`; `Err.flatMap` (lines 535-537) is
`return ResultT.err(this.error);`. -/
def TResult.flatMap {α β ε : Type} (func : α → TResult β ε) :
    TResult α ε → TResult β ε
  | .ok v => func v
  | .err e => TResult.err e

end Nullshield

/-- A heap-allocated `ResultT` instance of the nullshield generation,
tagged with its allocation id so that reference identity (`===`) is
expressible. -/
structure ResObj (α ε : Type) where
  id : Nat
  val : Nullshield.TResult α ε
deriving DecidableEq, Repr

/-- `Ok.orElse` (src/src/ResultT.ts lines 471-473):
`return ResultT.ok(this.value);` — a freshly allocated `Ok` (id `fresh`),
with `func` never invoked; `Err.orElse` (lines 539-541):
`return func(this.error);`.  `func`'s possible side effects are threaded
through the state `σ`. -/
def ResObj.orElse {α ε φ σ : Type} (self : ResObj α ε)
    (func : ε → σ → ResObj α φ × σ) (fresh : Nat) (s : σ) :
    ResObj α φ × σ :=
  match self.val with
  | .ok v => (⟨fresh, .ok v⟩, s)
  | .err e => func e s

/-- A JavaScript runtime value as seen by the tupperware
`None.unwrapOr` (src/src/Validation.ts lines 785-792): either a
non-function value or a function value.  JavaScript functions are heap
objects, so a function value is modelled as a reference (`funcRef id`)
into a call environment; two function values are `===` exactly when
their ids coincide.  This keeps self-referential closures
(`const f = () => f;`) expressible: the environment may map an id back
to its own reference. -/
inductive JsValue where
  | prim (n : Int)
  | funcRef (id : Nat)
deriving DecidableEq, Repr

/-- A call environment for zero-argument function values: calling the
function with id `i` returns `env i` (the thunks `unwrapOr` accepts take
no arguments, so a function's behaviour is exactly its return value). -/
def JsEnv : Type :=
  Nat → JsValue

/-- `None.unwrapOr` (src/src/Validation.ts lines 785-792):
`if (typeof other === 'function') { return (other as () => T)(); }
return other;` — a function value is called and its return value
returned, anything else is returned as-is. -/
def JsValue.noneUnwrapOr (env : JsEnv) : JsValue → JsValue
  | .funcRef i => env i
  | v => v

/-- `Some.unwrapOr` (src/src/Validation.ts lines 681-683):
`return this.value;` — the default is ignored entirely. -/
def JsValue.someUnwrapOr (value : JsValue) (_other : JsValue) : JsValue :=
  value

/-- The call environment of the self-referential JavaScript default
`const f = () => f;`: function id 0 returns its own function value. -/
def selfReturningEnv : JsEnv :=
  fun _ => JsValue.funcRef 0

namespace Tupperware

/-- The `Validation` variants (src/src/Validation.ts lines 1-79):
`Success` holds a value, `Failure` a list of errors (the `failure`
factory wraps its single argument into a one-element list). -/
inductive Validation (α ε : Type) where
  | success (value : α)
  | failure (errors : List ε)
deriving DecidableEq, Repr

/-- `Success.assert` (src/src/Validation.ts lines 44-46) returns `other`
unchanged; `Failure.assert` (lines 73-78) returns
`new Failure(this.errors)` when `other.isSuccess()`, otherwise
`new Failure([...this.errors, ...other.unwrapFailure()])`. -/
def Validation.assert {α ε : Type} :
    Validation α ε → Validation α ε → Validation α ε
  | .success _, other => other
  | .failure errs, .success _ => Validation.failure errs
  | .failure errs, .failure errs2 => Validation.failure (errs ++ errs2)

end Tupperware

/-- C1, counterexample: the claim as stated is false for the tupperware
generation's `Optional.of` (src/src/Validation.ts lines 135-137):
`Optional.of(null)` is a `Some`, with `isSome() === true`, even though
`null !== null && null !== undefined` is false. -/
theorem C1_of_null_counterexample :
    (Tupperware.TOption.of (Nullable.nul : Nullable Int)).isSome = true ∧
    (Nullable.nul : Nullable Int).isPresent = false :=
  ⟨rfl, rfl⟩

/-- C1, amended: `OptionT.of` (src/src/OptionT.ts lines 20-25) never
throws and satisfies `of(v).isSome() === (v !== null && v !== undefined)`;
the tupperware `Optional.of` (src/src/Validation.ts lines 135-137) also
never throws but returns a `Some` for every value, null and undefined
included — there `fromNullable` is the factory with the claimed
behaviour.  (Never throwing is reflected in the embedding by all three
factories being total functions into the option type rather than into
`Except`.) -/
theorem C1_of_totality {α : Type} (v : Nullable α) :
    ((Nullshield.NsOpt.of v).isSome).1 = v.isPresent ∧
    (Tupperware.TOption.of v).isSome = true ∧
    (Tupperware.TOption.fromNullable v).isSome = v.isPresent := by
  cases v <;>
    simp [Nullshield.NsOpt.of, Nullshield.NsOpt.isSome, Nullshield.NsOpt.new,
      Tupperware.TOption.of, Tupperware.TOption.isSome,
      Tupperware.TOption.fromNullable, Nullable.isPresent]

/-- C2, counterexample: the claim as stated is false for the tupperware
generation's `Optional.some` (src/src/Validation.ts lines 151-153):
`Optional.some(null)` does not fail — it returns a `Some` holding `null`
(its own test asserts exactly this: "should create a Some from a 'null'
value", src/test/Optional/basic.test.ts lines 22-25). -/
theorem C2_some_null_counterexample :
    Tupperware.TOption.someFactory (Nullable.nul : Nullable Int) =
      Tupperware.TOption.some Nullable.nul ∧
    (Tupperware.TOption.someFactory (Nullable.nul : Nullable Int)).isSome = true :=
  ⟨rfl, rfl⟩

/-- C2, amended: `OptionT.some` (src/src/OptionT.ts lines 27-32) fails
with the invalid-argument error when given null or undefined, and for
every present value `a` returns a `Some` with `isSome() === true` whose
`unwrap` (after that `isSome` inspection) yields `a`; the tupperware
`Optional.some` (src/src/Validation.ts lines 151-153) performs no check
and returns `Some(v)` for every value `v`, null and undefined included. -/
theorem C2_some_contract {α : Type} (v : Nullable α) :
    (v.isPresent = false →
      Nullshield.NsOpt.someFactory v =
        Except.error (.invalidArgument
          "Cannot create a Some of a null or undefined value")) ∧
    (∀ a, v = Nullable.val a →
      Nullshield.NsOpt.someFactory v =
          Except.ok (Nullshield.NsOpt.new (Option.some a)) ∧
        ((Nullshield.NsOpt.new (Option.some a)).isSome).1 = true ∧
        (((Nullshield.NsOpt.new (Option.some a)).isSome).2).unwrap Option.none =
          Except.ok a) ∧
    (Tupperware.TOption.someFactory v = Tupperware.TOption.some v) := by
  refine ⟨?_, ?_, rfl⟩
  · intro h
    cases v with
    | nul => rfl
    | undef => rfl
    | val a => simp [Nullable.isPresent] at h
  · intro a ha
    subst ha
    exact ⟨rfl, rfl, rfl⟩

/-- C2, witness: the amended contract applied at `null` and at the
concrete value `3`. -/
theorem C2_some_contract_witness :
    Nullshield.NsOpt.someFactory (Nullable.nul : Nullable Int) =
      Except.error (.invalidArgument
        "Cannot create a Some of a null or undefined value") ∧
    Nullshield.NsOpt.someFactory (Nullable.val (3 : Int)) =
      Except.ok (Nullshield.NsOpt.new (Option.some 3)) :=
  ⟨(C2_some_contract (Nullable.nul : Nullable Int)).1 rfl,
    ((C2_some_contract (Nullable.val (3 : Int))).2.1 3 rfl).1⟩

/-- C3: evaluation of the cited code at the failing input.  In the
tupperware generation `Some.map` re-wraps through `Optional.of`
(src/src/Validation.ts lines 689-691), but that `of` performs no null
check (lines 135-137), so `Optional.some(1).map(() => null)` yields
`Some(null)` with `isNone() === false` — contradicting the map
documentation in the very same file ("If the return value of `func` is
`null` or `undefined`, the [[Optional]] that is returned is guaranteed
to be a [[None]]", lines 377-379) and the claim. -/
theorem C3_map_null_eval :
    Tupperware.TOption.map (fun _ => (Nullable.nul : Nullable Int))
        (Tupperware.TOption.some (Nullable.val (1 : Int))) =
      Tupperware.TOption.some Nullable.nul ∧
    (Tupperware.TOption.map (fun _ => (Nullable.nul : Nullable Int))
        (Tupperware.TOption.some (Nullable.val (1 : Int)))).isNone = false :=
  ⟨rfl, rfl⟩

/-- C4: `flatMap` is associative for both families —
`a.flatMap(f).flatMap(g)` equals `a.flatMap(x => f(x).flatMap(g))` for
the tupperware `Optional` (src/src/Validation.ts lines 697-699, 806-808)
and for the nullshield `ResultT` (src/src/ResultT.ts lines 467-469,
535-537). -/
theorem C4_flatMap_assoc {α β γ ε : Type}
    (a : Tupperware.TOption α) (f : α → Tupperware.TOption β)
    (g : β → Tupperware.TOption γ)
    (r : Nullshield.TResult α ε) (rf : α → Nullshield.TResult β ε)
    (rg : β → Nullshield.TResult γ ε) :
    Tupperware.TOption.flatMap g (Tupperware.TOption.flatMap f a) =
      Tupperware.TOption.flatMap (fun x => Tupperware.TOption.flatMap g (f x)) a ∧
    Nullshield.TResult.flatMap rg (Nullshield.TResult.flatMap rf r) =
      Nullshield.TResult.flatMap (fun x => Nullshield.TResult.flatMap rg (rf x)) r := by
  constructor
  · cases a <;> rfl
  · cases r <;> rfl

/-- C5: on a `Some`, `unwrapOrElse` returns the contained value and
`orElse` returns the receiver itself, in both cases leaving the thunk's
state untouched (the thunk is never invoked); on a `None`, both simply
invoke the thunk (src/src/Validation.ts lines 685-687, 705-707, 794-796,
814-816). -/
theorem C5_some_laziness {α σ : Type} (v : α) (f : σ → α × σ)
    (g : σ → Tupperware.TOption α × σ) (s : σ) :
    Tupperware.TOption.unwrapOrElseS (Tupperware.TOption.some v) f s = (v, s) ∧
    Tupperware.TOption.orElseS (Tupperware.TOption.some v) g s =
      (Tupperware.TOption.some v, s) ∧
    Tupperware.TOption.unwrapOrElseS (Tupperware.TOption.none : Tupperware.TOption α) f s
      = f s ∧
    Tupperware.TOption.orElseS (Tupperware.TOption.none : Tupperware.TOption α) g s
      = g s :=
  ⟨rfl, rfl, rfl, rfl⟩

/-- C6: `filter` on a `Some` whose value satisfies the predicate returns
the very same object (same allocation id, hence `===` to the receiver);
on a failing predicate it returns a freshly allocated `None`; on a `None`
it always returns a freshly allocated `None`
(src/src/Validation.ts lines 717-722 and 826-828). -/
theorem C6_filter_identity {α : Type} (o : OptObj α) (p : α → Bool)
    (fresh : Nat) :
    (∀ v, o.val = Tupperware.TOption.some v → p v = true →
      o.filter p fresh = o) ∧
    (∀ v, o.val = Tupperware.TOption.some v → p v = false →
      o.filter p fresh = ⟨fresh, Tupperware.TOption.none⟩) ∧
    (o.val = Tupperware.TOption.none →
      o.filter p fresh = ⟨fresh, Tupperware.TOption.none⟩) := by
  refine ⟨?_, ?_, ?_⟩
  · intro v hv hp
    simp [OptObj.filter, hv, hp]
  · intro v hv hp
    simp [OptObj.filter, hv, hp]
  · intro hv
    simp [OptObj.filter, hv]

/-- C6, witness: filtering `Some(1)` (allocation id 0) with the
always-true predicate returns the object with id 0 itself, not a copy. -/
theorem C6_filter_identity_witness :
    (⟨0, Tupperware.TOption.some (1 : Int)⟩ : OptObj Int).filter
        (fun _ => true) 5 =
      (⟨0, Tupperware.TOption.some (1 : Int)⟩ : OptObj Int) :=
  (C6_filter_identity (⟨0, Tupperware.TOption.some (1 : Int)⟩ : OptObj Int)
    (fun _ => true) 5).1 1 rfl rfl

/-- C7: `Success.assert(other)` returns `other` unchanged;
`Failure.assert` keeps its own errors when `other` is a `Success` and
concatenates `this.errors ++ other.errors` when `other` is a `Failure`;
consequently a chain of three failures accumulates all error lists in
left-to-right order (src/src/Validation.ts lines 44-46 and 73-78). -/
theorem C7_assert_accumulation {α ε : Type} (v : α)
    (other : Tupperware.Validation α ε) (e1 e2 e3 : List ε) :
    Tupperware.Validation.assert (Tupperware.Validation.success v) other = other ∧
    Tupperware.Validation.assert
        (Tupperware.Validation.failure e1 : Tupperware.Validation α ε)
        (Tupperware.Validation.success v) = Tupperware.Validation.failure e1 ∧
    Tupperware.Validation.assert
        (Tupperware.Validation.failure e1 : Tupperware.Validation α ε)
        (Tupperware.Validation.failure e2) =
      Tupperware.Validation.failure (e1 ++ e2) ∧
    Tupperware.Validation.assert
        (Tupperware.Validation.assert
          (Tupperware.Validation.failure e1 : Tupperware.Validation α ε)
          (Tupperware.Validation.failure e2))
        (Tupperware.Validation.failure e3) =
      Tupperware.Validation.failure (e1 ++ e2 ++ e3) := by
  refine ⟨?_, rfl, rfl, rfl⟩
  cases other <;> rfl

/-- C8: evaluation of the cited code at the failing input.
`Ok.orElse` (src/src/ResultT.ts lines 471-473) executes
`return ResultT.ok(this.value);`, allocating a new `Ok` (fresh id 1)
rather than returning the receiver (id 0) — so the result is not `===`
to `this`, contradicting the method's own documentation ("Returns `this`
[[ResultT]] if it is an [[Ok]]", lines 351-374) and the claim, although
the value is preserved and `func` is indeed never invoked (the state 0 is
unchanged); `Err.orElse` (lines 539-541) invokes `func` on the error as
claimed. -/
theorem C8_okOrElse_eval :
    ResObj.orElse (⟨0, Nullshield.TResult.ok (1 : Int)⟩ : ResObj Int String)
        (fun e (s : Nat) =>
          ((⟨9, Nullshield.TResult.err e⟩ : ResObj Int String), s + 1)) 1 0 =
      ((⟨1, Nullshield.TResult.ok 1⟩ : ResObj Int String), 0) ∧
    ((⟨1, Nullshield.TResult.ok (1 : Int)⟩ : ResObj Int String) ≠
      (⟨0, Nullshield.TResult.ok 1⟩ : ResObj Int String)) ∧
    (∀ (e : String) (s : Nat),
      ResObj.orElse (⟨0, Nullshield.TResult.err e⟩ : ResObj Int String)
          (fun e1 (s1 : Nat) =>
            ((⟨9, Nullshield.TResult.err e1⟩ : ResObj Int String), s1 + 1)) 1 s =
        ((⟨9, Nullshield.TResult.err e⟩ : ResObj Int String), s + 1)) :=
  ⟨rfl, by decide, fun e s => rfl⟩

/-- C9: on a fresh instance (flag unset, so a bare `unwrap` would raise
the unchecked-unwrap condition), calling `and` sets `hasBeenInspected`
on the receiver — for the `Some` and the `None` class alike
(src/src/OptionT.ts lines 932-935 and 1029-1032) — so a subsequent
`unwrap` on that same instance never raises `nullshield:unchecked_unwrap`:
it returns the value on a `Some` and raises `nullshield:unwrap_on_none`
on a `None` (lines 902-911 and 993-1005). -/
theorem C9_and_sets_inspected {α β : Type} (self : Nullshield.NsOpt α)
    (other : Nullshield.NsOpt β) (msg : Option String)
    (h : self.hasBeenInspected = false) :
    self.unwrap msg =
      Except.error (.uncheckedUnwrap Nullshield.uncheckedUnwrapMsg) ∧
    ((self.and other).2).hasBeenInspected = true ∧
    (∀ v, self.val = Option.some v →
      ((self.and other).2).unwrap msg = Except.ok v) ∧
    (self.val = Option.none →
      ∃ m, ((self.and other).2).unwrap msg =
        Except.error (.unwrapOnNone m)) := by
  refine ⟨?_, ?_, ?_, ?_⟩
  · simp [Nullshield.NsOpt.unwrap, h]
  · cases hv : self.val <;> simp [Nullshield.NsOpt.and, hv]
  · intro v hv
    simp [Nullshield.NsOpt.and, hv, Nullshield.NsOpt.unwrap]
  · intro hv
    cases msg with
    | none =>
      exact ⟨"nullshield:unwrap_on_none: Called unwrap on a None value.",
        by simp [Nullshield.NsOpt.and, hv, Nullshield.NsOpt.unwrap]⟩
    | some m =>
      exact ⟨"nullshield:unwrap_on_none: " ++ m,
        by simp [Nullshield.NsOpt.and, hv, Nullshield.NsOpt.unwrap]⟩

/-- C9, witness: a fresh `Some(1)` instance — `unwrap` alone raises the
unchecked-unwrap condition, but after `and` the receiver unwraps to `1`. -/
theorem C9_and_sets_inspected_witness :
    (⟨Option.some (1 : Int), false⟩ : Nullshield.NsOpt Int).unwrap Option.none =
      Except.error (.uncheckedUnwrap Nullshield.uncheckedUnwrapMsg) ∧
    ((((⟨Option.some (1 : Int), false⟩ : Nullshield.NsOpt Int)).and
        (⟨Option.none, false⟩ : Nullshield.NsOpt Int)).2).unwrap Option.none =
      Except.ok 1 :=
  ⟨(C9_and_sets_inspected (⟨Option.some (1 : Int), false⟩ : Nullshield.NsOpt Int)
      (⟨Option.none, false⟩ : Nullshield.NsOpt Int) Option.none rfl).1,
    (C9_and_sets_inspected (⟨Option.some (1 : Int), false⟩ : Nullshield.NsOpt Int)
      (⟨Option.none, false⟩ : Nullshield.NsOpt Int) Option.none rfl).2.2.1 1 rfl⟩

/-- C10, counterexample: the "can never return the supplied default
function itself" part of the claim is false.  For the self-referential
default `const f = () => f;` (function id 0 in an environment mapping it
to its own reference), `None.unwrapOr(f)` calls `f` and gets back the
very function value that was supplied — the same heap reference. -/
theorem C10_self_function_counterexample :
    JsValue.noneUnwrapOr selfReturningEnv (JsValue.funcRef 0) =
      JsValue.funcRef 0 :=
  rfl

/-- C10, amended: whenever the default passed to the tupperware
`None.unwrapOr` (src/src/Validation.ts lines 785-792) is a function
value, `unwrapOr` invokes it and returns the call's result (so a
supplied function is returned itself exactly when it returns itself,
as the self-referential counterexample shows); a non-function default
is returned as-is. -/
theorem C10_noneUnwrapOr_calls_function :
    (∀ (env : JsEnv) (i : Nat),
      JsValue.noneUnwrapOr env (JsValue.funcRef i) = env i ∧
      (JsValue.noneUnwrapOr env (JsValue.funcRef i) = JsValue.funcRef i ↔
        env i = JsValue.funcRef i)) ∧
    (∀ (env : JsEnv) (n : Int),
      JsValue.noneUnwrapOr env (JsValue.prim n) = JsValue.prim n) :=
  ⟨fun _ _ => ⟨rfl, Iff.rfl⟩, fun _ _ => rfl⟩
